import Mathlib

/-!
Verification of the `alhileli/alhilali` MEXC futures portfolio backend.

The authoritative implementation is `src/server.js` (final iteration): one
Express handler for `GET /api/portfolio-data` that fetches tickers, account
assets, open positions and order history from the MEXC contract API, computes
derived metrics (available balance, per-position unrealized PNL, total equity,
best/worst closed trades) and returns one JSON snapshot.

Embedding conventions:
* JS numbers are modelled as `ℚ` (exact arithmetic; the claims under scrutiny
  concern formula structure, not float rounding).
* A raw JSON numeric field that the code runs through `parseFloat` is modelled
  as `Option ℚ`: `none` covers a missing/absent/unparseable value,
  `some q` a value that parses to `q`.  The code's `parseFloat(x || 0)` shape
  becomes `Option.getD 0`, and `parseFloat(x) || 1` becomes "1 when `none` or
  `some 0`, else the value".
* `makeRequest` returns `{success, data}`; a response is a `Resp` whose
  `data : Option α` is `none` when the payload is missing or not an array
  (the code guards with `success && Array.isArray(data)`).
* The handler never places orders; its outbound traffic is a fixed list of
  GET requests, modelled as `OutboundRequest` values.
* The crypto-js / node `crypto` HMAC-SHA256 primitive is an external library
  collaborator; the signing logic is parameterised by it.
* JS `Array.prototype.sort` is a stable sort; it is modelled by
  `List.insertionSort`, which is likewise stable, with the comparator
  `(a, b) => b.pnl - a.pnl` becoming the relation `descByPnl`.
-/

namespace Alhilali

/-- A ticker entry from `GET /api/v1/contract/ticker` (`getAllTickers`).
`lastPrice` is the parsed `ticker.lastPrice`. -/
structure Ticker where
  symbol : String
  lastPrice : ℚ
deriving Repr, DecidableEq

/-- An account asset entry from `/api/v1/private/account/assets`.
`availableBalance` is `none` when absent/falsy/unparseable (the code reads
`parseFloat(usdtAsset.availableBalance || 0)`). -/
structure Asset where
  currency : String
  availableBalance : Option ℚ
deriving Repr, DecidableEq

/-- An open position from `/api/v1/private/position/open_positions`.
In `server.js` the contract multiplier is read from the position record
itself (`pos.contractSize`).  `im` (initial margin) is kept as `Option ℚ`
because the code treats it with both `parseFloat(pos.im || 0)` and
`parseFloat(pos.im) || 1`. -/
structure Position where
  symbol : String
  positionType : Int
  leverage : ℚ
  holdAvgPrice : ℚ
  holdVol : ℚ
  contractSize : ℚ
  im : Option ℚ
deriving Repr, DecidableEq

/-- A history order from `/api/v1/private/order/list_history_orders`
(`data.resultList`).  The four numeric fields are `Option ℚ` because the
code first tests them for truthiness and then `parseFloat`s them. -/
structure HistoryOrder where
  symbol : String
  state : Int
  openType : Int
  dealAvgPrice : Option ℚ
  openAvgPrice : Option ℚ
  vol : Option ℚ
  contractSize : Option ℚ
deriving Repr, DecidableEq

/-- Result of `makeRequest`: `{ success, data }`.  `data = none` models a
missing payload or one that fails the code's `Array.isArray` check; for the
history endpoint `data` stands for the `resultList` array inside the payload
(the code guards `success && data && Array.isArray(data.resultList)`). -/
structure Resp (α : Type) where
  success : Bool
  data : Option α
deriving Repr, DecidableEq

/-- JS truthiness of a numeric field (`order.dealAvgPrice && ...`):
present and nonzero. -/
def truthy : Option ℚ → Bool
  | some q => q != 0
  | none => false

/-- The function `getAllTickers` builds `map[ticker.symbol] = ticker` by a `reduce`, so a
later entry overwrites an earlier one: lookup returns the last ticker with
the symbol. -/
def tickerMapLookup (tickers : List Ticker) (sym : String) : Option Ticker :=
  (tickers.filter (fun t => t.symbol == sym)).getLast?

/-- Section 1 of the handler: `availableBalance` is the parsed
`availableBalance` of the first USDT asset, `0` when the assets fetch failed,
returned a non-array, or holds no USDT entry. -/
def availableBalanceOf (assetsResp : Resp (List Asset)) : ℚ :=
  match assetsResp.success, assetsResp.data with
  | true, some assets =>
    match assets.find? (fun asset => asset.currency == "USDT") with
    | some usdtAsset => usdtAsset.availableBalance.getD 0
    | none => 0
  | _, _ => 0

/-- Source line `const currentPrice = ticker ? parseFloat(ticker.lastPrice) : 0`. -/
def currentPriceOf (tickers : List Ticker) (sym : String) : ℚ :=
  match tickerMapLookup tickers sym with
  | some ticker => ticker.lastPrice
  | none => 0

/-- Source line `const pnlDirection = pos.positionType === 1 ? 1 : -1`. -/
def pnlDirection (positionType : Int) : ℚ :=
  if positionType = 1 then 1 else -1

/-- The handler's "UNIFIED PNL CALCULATION" for one open position:
`(currentPrice > 0) ? (currentPrice - openPrice) * positionSize * contractSize
 * pnlDirection : 0`. -/
def calculatedPNL (tickers : List Ticker) (pos : Position) : ℚ :=
  let currentPrice := currentPriceOf tickers pos.symbol
  if 0 < currentPrice then
    (currentPrice - pos.holdAvgPrice) * pos.holdVol * pos.contractSize *
      pnlDirection pos.positionType
  else 0

/-- Source line `const margin = parseFloat(pos.im) || 1` — a missing, unparseable (NaN)
or zero `im` all being falsy, the divisor defaults to `1`. -/
def marginOf (pos : Position) : ℚ :=
  match pos.im with
  | some q => if q = 0 then 1 else q
  | none => 1

/-- The per-position object pushed onto `openPositions`. -/
structure OpenPositionView where
  symbol : String
  positionType : String
  leverage : ℚ
  openPrice : ℚ
  currentPrice : ℚ
  unrealizedPNL : ℚ
  pnlPercentage : ℚ
deriving Repr, DecidableEq

/-- One loop iteration of section 2 of the handler. -/
def processPosition (tickers : List Ticker) (pos : Position) : OpenPositionView :=
  let pnl := calculatedPNL tickers pos
  { symbol := pos.symbol
    positionType := if pos.positionType = 1 then "Long" else "Short"
    leverage := pos.leverage
    openPrice := pos.holdAvgPrice
    currentPrice := currentPriceOf tickers pos.symbol
    unrealizedPNL := pnl
    pnlPercentage := pnl / marginOf pos * 100 }

/-- The guard of section 2: `success && Array.isArray(data) &&
data.length > 0`. -/
def positionsOk (posResp : Resp (List Position)) : Bool :=
  posResp.success &&
    match posResp.data with
    | some l => decide (0 < l.length)
    | none => false

/-- The list the position loop runs over (empty when the guard fails). -/
def positionsList (posResp : Resp (List Position)) : List Position :=
  if positionsOk posResp then posResp.data.getD [] else []

/-- Source line `totalMarginInPositions = data.reduce((sum, pos) => sum +
parseFloat(pos.im || 0), 0)` under the section-2 guard. -/
def totalMarginOf (posResp : Resp (List Position)) : ℚ :=
  (positionsList posResp).foldl (fun sum pos => sum + pos.im.getD 0) 0

/-- The `totalUnrealizedPNL` accumulated over the loop. -/
def totalUnrealizedPNLOf (tickers : List Ticker) (posResp : Resp (List Position)) : ℚ :=
  (positionsList posResp).foldl (fun sum pos => sum + calculatedPNL tickers pos) 0

/-- The `openPositions` array pushed by the loop. -/
def openPositionsOf (tickers : List Ticker) (posResp : Resp (List Position)) :
    List OpenPositionView :=
  (positionsList posResp).map (processPosition tickers)

/-- An entry of `closedTrades` / `bestTrades` / `worstTrades` (the
locale-formatted `date` string is outside the numeric embedding and carries
no verified content). -/
structure TradeView where
  symbol : String
  pnl : ℚ
deriving Repr, DecidableEq

/-- Section-4 filter: `order.state === 3 && order.dealAvgPrice &&
order.openAvgPrice && order.vol && order.contractSize`. -/
def hasTradeData (order : HistoryOrder) : Bool :=
  order.state == 3 && truthy order.dealAvgPrice && truthy order.openAvgPrice &&
    truthy order.vol && truthy order.contractSize

/-- The "UNIFIED PNL CALCULATION for closed trades":
`(closePrice - openPrice) * positionSize * contractSize * pnlDirection` with
`pnlDirection = order.openType === 1 ? 1 : -1`. -/
def tradePNL (order : HistoryOrder) : ℚ :=
  (order.dealAvgPrice.getD 0 - order.openAvgPrice.getD 0) * order.vol.getD 0 *
    order.contractSize.getD 0 * pnlDirection order.openType

/-- The `closedTrades` list before sorting: filter then map, empty when the history
fetch failed or `resultList` is not an array. -/
def closedTradesOf (histResp : Resp (List HistoryOrder)) : List TradeView :=
  match histResp.success, histResp.data with
  | true, some orders =>
    (orders.filter hasTradeData).map (fun order => ⟨order.symbol, tradePNL order⟩)
  | _, _ => []

/-- The comparator `(a, b) => b.pnl - a.pnl`: `a` may come before `b` iff
`b.pnl ≤ a.pnl` (descending PNL). -/
def descByPnl (a b : TradeView) : Prop := b.pnl ≤ a.pnl

instance : DecidableRel descByPnl :=
  fun a b => inferInstanceAs (Decidable (b.pnl ≤ a.pnl))

instance : IsTotal TradeView descByPnl := ⟨fun a b => le_total b.pnl a.pnl⟩

instance : IsTrans TradeView descByPnl := ⟨fun _ _ _ h1 h2 => le_trans h2 h1⟩

/-- Source line `closedTrades.sort((a, b) => b.pnl - a.pnl)` — a stable descending sort,
modelled by the (stable) insertion sort under `descByPnl`. -/
def sortedTradesOf (histResp : Resp (List HistoryOrder)) : List TradeView :=
  (closedTradesOf histResp).insertionSort descByPnl

/-- Source line `bestTrades = closedTrades.slice(0, 3)` after the descending sort. -/
def bestTradesOf (histResp : Resp (List HistoryOrder)) : List TradeView :=
  (sortedTradesOf histResp).take 3

/-- Predicate `t.pnl < 0` as a Bool predicate (`closedTrades.filter(t => t.pnl < 0)`). -/
def isLoss (t : TradeView) : Bool := t.pnl < 0

/-- Source line `worstTrades = closedTrades.filter(t => t.pnl < 0).slice(-3).reverse()`:
the last up-to-3 of the descending-sorted losses, most negative first. -/
def worstTradesOf (histResp : Resp (List HistoryOrder)) : List TradeView :=
  let losses := (sortedTradesOf histResp).filter isLoss
  (losses.drop (losses.length - 3)).reverse

/-- The JSON body of a successful `GET /api/portfolio-data` response. -/
structure Snapshot where
  totalBalance : ℚ
  assetsValue : ℚ
  openPositionsCount : Nat
  openPositions : List OpenPositionView
  bestTrades : List TradeView
  worstTrades : List TradeView
deriving Repr, DecidableEq

/-- The aggregation body of the handler (sections 1–5 of `server.js`),
as a function of the four fetched sources. -/
def portfolioData (tickers : List Ticker) (assetsResp : Resp (List Asset))
    (posResp : Resp (List Position)) (histResp : Resp (List HistoryOrder)) :
    Snapshot :=
  { totalBalance :=
      availableBalanceOf assetsResp + totalMarginOf posResp +
        totalUnrealizedPNLOf tickers posResp
    assetsValue := totalMarginOf posResp
    openPositionsCount := (openPositionsOf tickers posResp).length
    openPositions := openPositionsOf tickers posResp
    bestTrades := bestTradesOf histResp
    worstTrades := worstTradesOf histResp }

/-- Result of one handling of `GET /api/portfolio-data`: either HTTP 200 with
the snapshot, or HTTP 500 with a JSON error body. -/
inductive HttpResult where
  | ok (body : Snapshot)
  | serverError (message : String)
deriving Repr, DecidableEq

/-- HTTP status of a handler result. -/
def status : HttpResult → Nat
  | .ok _ => 200
  | .serverError _ => 500

/-- JS truthiness of an env-var string (`!apiKey || !secretKey`). -/
def strTruthy : Option String → Bool
  | some s => !s.isEmpty
  | none => false

/-- The route: the missing-keys guard returns 500; otherwise the aggregation
runs on whatever the four fetches produced (failed fetches having already been
converted to `success: false` results by `makeRequest`/`getAllTickers`) and is
sent with status 200.  The `catch` clause (500) is only reachable through an
exception the total aggregation body cannot raise. -/
def route (apiKey secretKey : Option String) (tickers : List Ticker)
    (assetsResp : Resp (List Asset)) (posResp : Resp (List Position))
    (histResp : Resp (List HistoryOrder)) : HttpResult :=
  if strTruthy apiKey && strTruthy secretKey then
    .ok (portfolioData tickers assetsResp posResp histResp)
  else
    .serverError "API keys are not configured on the server"

/-! ### Outbound traffic and request signing -/

/-- HTTP method of an outbound request. -/
inductive HttpMethod where
  | GET
  | POST
deriving Repr, DecidableEq

/-- One outbound request the service makes to the exchange. -/
structure OutboundRequest where
  method : HttpMethod
  endpoint : String
  params : List (String × String)
deriving Repr, DecidableEq

/-- The exchange requests issued per handling of `GET /api/portfolio-data`
in `server.js`: the public ticker fetch inside `getAllTickers` (node-fetch
defaults to GET) and the three `makeRequest` calls of the `Promise.all`
(each hard-coded `method: 'GET'`). -/
def serverOutboundRequests : List OutboundRequest :=
  [ ⟨.GET, "/api/v1/contract/ticker", []⟩,
    ⟨.GET, "/api/v1/private/account/assets", []⟩,
    ⟨.GET, "/api/v1/private/position/open_positions", []⟩,
    ⟨.GET, "/api/v1/private/order/list_history_orders", [("page_size", "200")]⟩ ]

/-- The five exchange requests of the earlier iteration `part_007` (and the
`part_003`/`part_004`/`part_005` family): all `makeRequest('GET', ...)` plus
two public fetches, including the contract-detail fetch. -/
def part007OutboundRequests : List OutboundRequest :=
  [ ⟨.GET, "/api/v1/private/account/assets", []⟩,
    ⟨.GET, "/api/v1/private/position/open_positions", []⟩,
    ⟨.GET, "/api/v1/private/order/list/history_orders", [("page_size", "200")]⟩,
    ⟨.GET, "/api/v1/contract/ticker", []⟩,
    ⟨.GET, "/api/v1/contract/detail", []⟩ ]

/-- The read-only (data-fetching) endpoints of the MEXC contract API used by
any iteration of the service; none of them places or cancels orders. -/
def readOnlyEndpoints : List String :=
  [ "/api/v1/contract/ticker",
    "/api/v1/contract/detail",
    "/api/v1/private/account/assets",
    "/api/v1/private/position/open_positions",
    "/api/v1/private/order/list_history_orders",
    "/api/v1/private/order/list/history_orders" ]

/-- Model of `new URLSearchParams(params).toString()` for the simple alphanumeric
parameter maps the service uses (`{ page_size: 200 }`): `k=v` pairs joined
by `&` (percent-encoding never arises for these values). -/
def queryStringOf (params : List (String × String)) : String :=
  String.intercalate "&" (params.map (fun p => p.1 ++ "=" ++ p.2))

/-- A signed request as assembled by `makeRequest` in `server.js`: the URL
and the four headers. -/
structure SignedRequest where
  url : String
  method : HttpMethod
  apiKeyHeader : String
  requestTimeHeader : String
  signatureHeader : String
deriving Repr, DecidableEq

/-- Function `createSignature(timestamp, params)` of the ES-module iterations
(`crypto.createHmac('sha256', secretKey).update(apiKey + timestamp +
params).digest('hex')`).  `hmacSHA256Hex secret message` abstracts the
external HMAC-SHA256 hex digest primitive. -/
def createSignature (hmacSHA256Hex : String → String → String)
    (apiKey secretKey : String) (timestamp : String) (params : String) : String :=
  hmacSHA256Hex secretKey (apiKey ++ timestamp ++ params)

/-- Function `makeRequest(endpoint, params)` of `server.js`: build the query string,
sign `apiKey + timestamp + queryString` with HMAC-SHA256 under the secret
key, and send a GET with `ApiKey`, `Request-Time` and `Signature` headers
(the same `timestamp` value appearing in `Request-Time`). -/
def makeRequestSigned (hmacSHA256Hex : String → String → String)
    (apiKey secretKey : String) (timestamp : Nat) (endpoint : String)
    (params : List (String × String)) : SignedRequest :=
  let queryString := queryStringOf params
  let toSign := apiKey ++ toString timestamp ++ queryString
  let signature := hmacSHA256Hex secretKey toSign
  { url := "https://contract.mexc.com" ++ endpoint ++
      (if queryString = "" then "" else "?" ++ queryString)
    method := .GET
    apiKeyHeader := apiKey
    requestTimeHeader := toString timestamp
    signatureHeader := signature }

/-- Variant `part_007` per-position percentage:
`pos.im > 0 ? (pnl / pos.im) * 100 : 0`. -/
def part007PnlPercentage (pnl im : ℚ) : ℚ :=
  if 0 < im then pnl / im * 100 else 0

/-! ### Helper lemmas -/

/-- A JS `reduce((sum, x) => sum + f(x), init)` is `init` plus the sum of the
mapped list. -/
theorem foldl_add_map {α : Type} (f : α → ℚ) (init : ℚ) (l : List α) :
    l.foldl (fun sum x => sum + f x) init = init + (l.map f).sum := by
  induction l generalizing init with
  | nil => simp
  | cons x xs ih =>
    rw [List.foldl_cons, ih, List.map_cons, List.sum_cons]
    ring

/-- A successful positions response with an array payload is exactly the list
the loop runs over (the extra `length > 0` guard is invisible: an empty array
yields an empty loop either way). -/
theorem positionsList_eq_of {posResp : Resp (List Position)} {l : List Position}
    (hs : posResp.success = true) (hd : posResp.data = some l) :
    positionsList posResp = l := by
  cases l with
  | nil => simp [positionsList, positionsOk, hs, hd]
  | cons x xs => simp [positionsList, positionsOk, hs, hd]

/-- A failed or malformed assets response contributes `availableBalance = 0`. -/
theorem availableBalanceOf_of_failed {assetsResp : Resp (List Asset)}
    (hfail : ¬(assetsResp.success = true ∧ assetsResp.data.isSome = true)) :
    availableBalanceOf assetsResp = 0 := by
  rcases assetsResp with ⟨s, d⟩
  cases s with
  | false => rfl
  | true =>
    cases d with
    | none => rfl
    | some l => exact absurd ⟨rfl, rfl⟩ hfail

/-- A failed or malformed positions response fails the section-2 guard. -/
theorem positionsOk_of_failed {posResp : Resp (List Position)}
    (hfail : ¬(posResp.success = true ∧ posResp.data.isSome = true)) :
    positionsOk posResp = false := by
  rcases posResp with ⟨s, d⟩
  cases s with
  | false => simp [positionsOk]
  | true =>
    cases d with
    | none => simp [positionsOk]
    | some l => exact absurd ⟨rfl, rfl⟩ hfail

/-- Under a failed positions guard the loop list is empty. -/
theorem positionsList_of_failed {posResp : Resp (List Position)}
    (hfail : ¬(posResp.success = true ∧ posResp.data.isSome = true)) :
    positionsList posResp = [] := by
  simp [positionsList, positionsOk_of_failed hfail]

/-- A failed or malformed history response yields no closed trades. -/
theorem closedTradesOf_of_failed {histResp : Resp (List HistoryOrder)}
    (hfail : ¬(histResp.success = true ∧ histResp.data.isSome = true)) :
    closedTradesOf histResp = [] := by
  rcases histResp with ⟨s, d⟩
  cases s with
  | false => rfl
  | true =>
    cases d with
    | none => rfl
    | some l => exact absurd ⟨rfl, rfl⟩ hfail

/-- An empty ticker map (`getAllTickers` failure) resolves no symbol. -/
theorem tickerMapLookup_nil (sym : String) : tickerMapLookup [] sym = none := rfl

/-- A position whose symbol has no ticker gets unrealized PNL `0`
(`currentPrice = 0` fails the `currentPrice > 0` test). -/
theorem calculatedPNL_of_lookup_none {tickers : List Ticker} {pos : Position}
    (h : tickerMapLookup tickers pos.symbol = none) :
    calculatedPNL tickers pos = 0 := by
  simp [calculatedPNL, currentPriceOf, h]

/-! ### Claim theorems -/

/-- C10: in every successful response the `openPositionsCount` field equals
the length of the `openPositions` array (the handler sends
`openPositionsCount: openPositions.length`). -/
theorem c10_open_positions_count (tickers : List Ticker)
    (assetsResp : Resp (List Asset)) (posResp : Resp (List Position))
    (histResp : Resp (List HistoryOrder)) :
    (portfolioData tickers assetsResp posResp histResp).openPositionsCount =
      (portfolioData tickers assetsResp posResp histResp).openPositions.length :=
  rfl

/-- C7: for every signed request, the `Signature` header is the hex HMAC-SHA256,
keyed with the secret key, of the API key concatenated with the request
timestamp and the query-parameter string (which is also what the ES-module
iterations' `createSignature` computes), and the very same timestamp is sent
in the `Request-Time` header. -/
theorem c7_signed_request_headers (hmacSHA256Hex : String → String → String)
    (apiKey secretKey : String) (timestamp : Nat) (endpoint : String)
    (params : List (String × String)) :
    (makeRequestSigned hmacSHA256Hex apiKey secretKey timestamp endpoint
      params).signatureHeader =
        hmacSHA256Hex secretKey (apiKey ++ toString timestamp ++ queryStringOf params) ∧
    (makeRequestSigned hmacSHA256Hex apiKey secretKey timestamp endpoint
      params).signatureHeader =
        createSignature hmacSHA256Hex apiKey secretKey (toString timestamp)
          (queryStringOf params) ∧
    (makeRequestSigned hmacSHA256Hex apiKey secretKey timestamp endpoint
      params).requestTimeHeader = toString timestamp ∧
    (makeRequestSigned hmacSHA256Hex apiKey secretKey timestamp endpoint
      params).apiKeyHeader = apiKey :=
  ⟨rfl, rfl, rfl, rfl⟩

/-- C9: the `pnlPercentage` divisor `parseFloat(pos.im) || 1` is never zero —
a missing, unparseable or zero initial margin defaults it to `1` — so the
percentage is a well-defined (finite) rational; in the `part_007` variant the
percentage instead defaults to `0` whenever `im` is not positive. -/
theorem c9_pnl_percentage_divisor :
    (∀ pos : Position, marginOf pos ≠ 0) ∧
    (∀ pos : Position, pos.im = none ∨ pos.im = some 0 → marginOf pos = 1) ∧
    (∀ (tickers : List Ticker) (pos : Position),
      (processPosition tickers pos).pnlPercentage =
        calculatedPNL tickers pos / marginOf pos * 100) ∧
    (∀ pnl im : ℚ, im ≤ 0 → part007PnlPercentage pnl im = 0) := by
  refine ⟨?_, ?_, ?_, ?_⟩
  · intro pos
    rcases pos with ⟨sym, pt, lev, hold, vol, cs, im⟩
    cases im with
    | none => simp [marginOf]
    | some q =>
      by_cases hq : q = 0
      · simp [marginOf, hq]
      · simp [marginOf, hq]
  · intro pos h
    rcases h with h | h <;> simp [marginOf, h]
  · intro tickers pos
    rfl
  · intro pnl im h
    simp [part007PnlPercentage, not_lt.mpr h]

/-- C9 witness: a concrete position whose `im` parses to `0` still gets the
nonzero divisor `1`. -/
theorem c9_witness :
    marginOf ⟨"BTC_USDT", 1, 10, 50000, 2, 1, some 0⟩ = 1 :=
  c9_pnl_percentage_divisor.2.1 ⟨"BTC_USDT", 1, 10, 50000, 2, 1, some 0⟩
    (Or.inr rfl)

/-- C8: the service only reads: every outbound exchange request of
`server.js` (and of the five-fetch `part_007` iteration) is an HTTP GET to a
read-only endpoint, and the signed-request builder hard-codes the GET
method; no order-placing or state-mutating call exists. -/
theorem c8_read_only_get :
    (∀ r ∈ serverOutboundRequests ++ part007OutboundRequests,
      r.method = HttpMethod.GET ∧ r.endpoint ∈ readOnlyEndpoints) ∧
    (∀ (hmacSHA256Hex : String → String → String) (apiKey secretKey : String)
      (timestamp : Nat) (endpoint : String) (params : List (String × String)),
      (makeRequestSigned hmacSHA256Hex apiKey secretKey timestamp endpoint
        params).method = HttpMethod.GET) := by
  constructor
  · decide
  · intro hmacSHA256Hex apiKey secretKey timestamp endpoint params
    rfl

/-- C8 witness: the ticker fetch is one of the outbound requests and is a GET
to a read-only endpoint. -/
theorem c8_witness :
    (⟨HttpMethod.GET, "/api/v1/contract/ticker", []⟩ : OutboundRequest).method =
        HttpMethod.GET ∧
    (⟨HttpMethod.GET, "/api/v1/contract/ticker", []⟩ :
        OutboundRequest).endpoint ∈ readOnlyEndpoints :=
  c8_read_only_get.1 ⟨HttpMethod.GET, "/api/v1/contract/ticker", []⟩ (by decide)

/-- C6 counterexample: the `server.js` handler issues no request to the
contract-detail endpoint, so it does not fetch contract metadata — the claim
that every request fetches all five sources fails on the fifth source. -/
theorem c6_counterexample :
    ¬∃ r ∈ serverOutboundRequests, r.endpoint = "/api/v1/contract/detail" := by
  decide

/-- C6 amended: per request the `server.js` handler fetches four sources —
ticker prices, account assets, open positions and trade history — each by a
GET; it does not fetch contract metadata (the contract multiplier is read
from the position/order records themselves), while the earlier `part_007`
iteration does fetch `/api/v1/contract/detail` as a fifth source. -/
theorem c6_amended :
    (∀ endpoint ∈ ["/api/v1/contract/ticker", "/api/v1/private/account/assets",
        "/api/v1/private/position/open_positions",
        "/api/v1/private/order/list_history_orders"],
      ∃ r ∈ serverOutboundRequests,
        r.endpoint = endpoint ∧ r.method = HttpMethod.GET) ∧
    (¬∃ r ∈ serverOutboundRequests,
        r.endpoint = "/api/v1/contract/detail") ∧
    (∃ r ∈ part007OutboundRequests,
        r.endpoint = "/api/v1/contract/detail" ∧ r.method = HttpMethod.GET) := by
  refine ⟨?_, ?_, ?_⟩ <;> decide

/-- C6 witness: the assets source is among the four fetched by the handler. -/
theorem c6_witness :
    ∃ r ∈ serverOutboundRequests,
      r.endpoint = "/api/v1/private/account/assets" ∧ r.method = HttpMethod.GET :=
  c6_amended.1 "/api/v1/private/account/assets" (by decide)

/-- C4 counterexample: with keys configured and every exchange request failed
(`success: false` everywhere), the endpoint still answers HTTP 200 with a
snapshot — a failed exchange request does not produce a 500, refuting the
claim that any such failure is answered with status 500. -/
theorem c4_counterexample :
    (Resp.success (α := List Asset) ⟨false, none⟩ = false) ∧
    status (route (some "key") (some "secret") [] ⟨false, none⟩ ⟨false, none⟩
      ⟨false, none⟩) = 200 ∧
    status (route (some "key") (some "secret") [] ⟨false, none⟩ ⟨false, none⟩
      ⟨false, none⟩) ≠ 500 := by
  refine ⟨rfl, rfl, ?_⟩
  decide

/-- C4 amended: the failure handling is catch-and-500 only in the sense that
missing API keys (or an exception escaping the aggregation) yield HTTP 500
with a JSON error body, and every result is either 200 or 500; a failed
exchange request, however, is converted by `makeRequest` into a
`success: false` value and the handler still answers 200 with that source
defaulted. -/
theorem c4_amended (apiKey secretKey : Option String) (tickers : List Ticker)
    (assetsResp : Resp (List Asset)) (posResp : Resp (List Position))
    (histResp : Resp (List HistoryOrder)) :
    (strTruthy apiKey = false ∨ strTruthy secretKey = false →
      route apiKey secretKey tickers assetsResp posResp histResp =
        .serverError "API keys are not configured on the server") ∧
    (strTruthy apiKey = true → strTruthy secretKey = true →
      route apiKey secretKey tickers assetsResp posResp histResp =
        .ok (portfolioData tickers assetsResp posResp histResp)) ∧
    (∀ result : HttpResult, status result = 200 ∨ status result = 500) := by
  refine ⟨?_, ?_, ?_⟩
  · intro hk
    have hcond : (strTruthy apiKey && strTruthy secretKey) = false := by
      rcases hk with h | h <;> simp [h]
    simp [route, hcond]
  · intro h1 h2
    simp [route, h1, h2]
  · intro result
    cases result with
    | ok body => exact Or.inl rfl
    | serverError msg => exact Or.inr rfl

/-- C4 witness: with the API key absent the route answers the 500 error
body. -/
theorem c4_witness :
    route none (some "secret") [] ⟨true, some []⟩ ⟨true, some []⟩
        ⟨true, some []⟩ =
      .serverError "API keys are not configured on the server" :=
  (c4_amended none (some "secret") [] ⟨true, some []⟩ ⟨true, some []⟩
    ⟨true, some []⟩).1 (Or.inl rfl)

/-- C1: every open position whose symbol resolves to a ticker with positive
`lastPrice` is marked to that price: its reported `unrealizedPNL` is
`(currentPrice - holdAvgPrice) * holdVol * contractSize * direction` with
direction `+1` for `positionType = 1` (Long) and `-1` otherwise. -/
theorem c1_unrealized_pnl_formula (tickers : List Ticker)
    (posResp : Resp (List Position)) (l : List Position)
    (hs : posResp.success = true) (hd : posResp.data = some l)
    (i : Nat) (p : Position) (hp : l[i]? = some p) (t : Ticker)
    (ht : tickerMapLookup tickers p.symbol = some t)
    (hlast : 0 < t.lastPrice) :
    ((openPositionsOf tickers posResp)[i]?).map OpenPositionView.unrealizedPNL =
      some ((t.lastPrice - p.holdAvgPrice) * p.holdVol * p.contractSize *
        pnlDirection p.positionType) := by
  have hl : positionsList posResp = l := positionsList_eq_of hs hd
  have hcp : currentPriceOf tickers p.symbol = t.lastPrice := by
    simp [currentPriceOf, ht]
  rw [openPositionsOf, hl, List.getElem?_map, hp]
  simp [processPosition, calculatedPNL, hcp, hlast]

/-- C1 witness: a concrete long position of 2 contracts opened at 50000 with
contract size 1 and a live ticker at 50500 reports unrealized PNL
`(50500 - 50000) * 2 * 1 * 1`. -/
theorem c1_witness :
    ((openPositionsOf [⟨"BTC_USDT", 50500⟩]
        ⟨true, some [⟨"BTC_USDT", 1, 10, 50000, 2, 1, some 100⟩]⟩)[0]?).map
          OpenPositionView.unrealizedPNL =
      some (((50500 : ℚ) - 50000) * 2 * 1 * pnlDirection 1) :=
  c1_unrealized_pnl_formula [⟨"BTC_USDT", 50500⟩]
    ⟨true, some [⟨"BTC_USDT", 1, 10, 50000, 2, 1, some 100⟩]⟩
    [⟨"BTC_USDT", 1, 10, 50000, 2, 1, some 100⟩] rfl rfl 0
    ⟨"BTC_USDT", 1, 10, 50000, 2, 1, some 100⟩ rfl ⟨"BTC_USDT", 50500⟩
    (by decide) (by decide)

/-- C2: with a parsed USDT asset and a well-formed positions payload, the
reported equity `totalBalance` is the USDT available balance plus the sum of
the positions' initial margins plus the sum of the computed unrealized PNLs
— equity includes unrealized PNL. -/
theorem c2_total_balance_decomposition (tickers : List Ticker)
    (assetsResp : Resp (List Asset)) (posResp : Resp (List Position))
    (histResp : Resp (List HistoryOrder)) (assets : List Asset)
    (usdtAsset : Asset) (bal : ℚ) (poss : List Position)
    (has : assetsResp.success = true) (had : assetsResp.data = some assets)
    (hfind : assets.find? (fun asset => asset.currency == "USDT") = some usdtAsset)
    (hbal : usdtAsset.availableBalance = some bal)
    (hps : posResp.success = true) (hpd : posResp.data = some poss) :
    (portfolioData tickers assetsResp posResp histResp).totalBalance =
      bal + (poss.map (fun pos => pos.im.getD 0)).sum +
        (poss.map (calculatedPNL tickers)).sum := by
  have havail : availableBalanceOf assetsResp = bal := by
    rcases assetsResp with ⟨s, d⟩
    cases has
    cases had
    simp [availableBalanceOf, hfind, hbal]
  have hl : positionsList posResp = poss := positionsList_eq_of hps hpd
  show availableBalanceOf assetsResp + totalMarginOf posResp +
      totalUnrealizedPNLOf tickers posResp = _
  rw [havail, totalMarginOf, totalUnrealizedPNLOf, hl, foldl_add_map,
    foldl_add_map, zero_add, zero_add]

/-- C2 witness: one long position with margin 100 and unrealized PNL 1000 on
top of a 1000 USDT available balance gives equity 2100. -/
theorem c2_witness :
    (portfolioData [⟨"BTC_USDT", 50500⟩] ⟨true, some [⟨"USDT", some 1000⟩]⟩
        ⟨true, some [⟨"BTC_USDT", 1, 10, 50000, 2, 1, some 100⟩]⟩
        ⟨true, some []⟩).totalBalance =
      1000 + (([⟨"BTC_USDT", 1, 10, 50000, 2, 1, some 100⟩] :
          List Position).map (fun pos => pos.im.getD 0)).sum +
        (([⟨"BTC_USDT", 1, 10, 50000, 2, 1, some 100⟩] :
          List Position).map (calculatedPNL [⟨"BTC_USDT", 50500⟩])).sum :=
  c2_total_balance_decomposition [⟨"BTC_USDT", 50500⟩]
    ⟨true, some [⟨"USDT", some 1000⟩]⟩
    ⟨true, some [⟨"BTC_USDT", 1, 10, 50000, 2, 1, some 100⟩]⟩ ⟨true, some []⟩
    [⟨"USDT", some 1000⟩] ⟨"USDT", some 1000⟩ 1000
    [⟨"BTC_USDT", 1, 10, 50000, 2, 1, some 100⟩] rfl rfl (by decide) rfl rfl rfl

/-- C3: for every combination of per-source outcomes the handler still
produces one complete snapshot in which a failed source contributes its
default — failed assets give available balance 0, failed positions give an
empty `openPositions` with zero margin, failed history gives empty
best/worst trades, and a missing (or wholly failed) ticker source zeroes
exactly the unrealized PNLs — while the other sources' contributions are
unchanged. -/
theorem c3_partial_failure_defaults (tickers : List Ticker)
    (assetsResp : Resp (List Asset)) (posResp : Resp (List Position))
    (histResp : Resp (List HistoryOrder)) :
    (¬(assetsResp.success = true ∧ assetsResp.data.isSome = true) →
      availableBalanceOf assetsResp = 0 ∧
      (portfolioData tickers assetsResp posResp histResp).totalBalance =
        totalMarginOf posResp + totalUnrealizedPNLOf tickers posResp ∧
      (portfolioData tickers assetsResp posResp histResp).openPositions =
        openPositionsOf tickers posResp ∧
      (portfolioData tickers assetsResp posResp histResp).bestTrades =
        bestTradesOf histResp ∧
      (portfolioData tickers assetsResp posResp histResp).worstTrades =
        worstTradesOf histResp) ∧
    (¬(posResp.success = true ∧ posResp.data.isSome = true) →
      (portfolioData tickers assetsResp posResp histResp).openPositions = [] ∧
      (portfolioData tickers assetsResp posResp histResp).assetsValue = 0 ∧
      (portfolioData tickers assetsResp posResp histResp).totalBalance =
        availableBalanceOf assetsResp ∧
      (portfolioData tickers assetsResp posResp histResp).bestTrades =
        bestTradesOf histResp ∧
      (portfolioData tickers assetsResp posResp histResp).worstTrades =
        worstTradesOf histResp) ∧
    (¬(histResp.success = true ∧ histResp.data.isSome = true) →
      (portfolioData tickers assetsResp posResp histResp).bestTrades = [] ∧
      (portfolioData tickers assetsResp posResp histResp).worstTrades = [] ∧
      (portfolioData tickers assetsResp posResp histResp).openPositions =
        openPositionsOf tickers posResp ∧
      (portfolioData tickers assetsResp posResp histResp).totalBalance =
        availableBalanceOf assetsResp + totalMarginOf posResp +
          totalUnrealizedPNLOf tickers posResp) ∧
    (∀ pos : Position, tickerMapLookup tickers pos.symbol = none →
      calculatedPNL tickers pos = 0) ∧
    (∀ view ∈ (portfolioData [] assetsResp posResp histResp).openPositions,
      view.currentPrice = 0 ∧ view.unrealizedPNL = 0) ∧
    ((portfolioData [] assetsResp posResp histResp).totalBalance =
        availableBalanceOf assetsResp + totalMarginOf posResp ∧
      (portfolioData [] assetsResp posResp histResp).bestTrades =
        bestTradesOf histResp ∧
      (portfolioData [] assetsResp posResp histResp).worstTrades =
        worstTradesOf histResp) := by
  have hpnl_nil : ∀ pos : Position, calculatedPNL [] pos = 0 := fun pos =>
    calculatedPNL_of_lookup_none (tickerMapLookup_nil pos.symbol)
  have htotal_nil : totalUnrealizedPNLOf [] posResp = 0 := by
    rw [totalUnrealizedPNLOf, foldl_add_map, zero_add]
    apply List.sum_eq_zero
    intro x hx
    rcases List.mem_map.mp hx with ⟨pos, _, heq⟩
    rw [← heq]
    exact hpnl_nil pos
  refine ⟨?_, ?_, ?_, ?_, ?_, ?_⟩
  · intro hfail
    refine ⟨availableBalanceOf_of_failed hfail, ?_, rfl, rfl, rfl⟩
    show availableBalanceOf assetsResp + _ + _ = _
    rw [availableBalanceOf_of_failed hfail, zero_add]
  · intro hfail
    have hl := positionsList_of_failed hfail
    have hmargin : totalMarginOf posResp = 0 := by
      rw [totalMarginOf, hl]; rfl
    have hpnl : totalUnrealizedPNLOf tickers posResp = 0 := by
      rw [totalUnrealizedPNLOf, hl]; rfl
    refine ⟨?_, ?_, ?_, rfl, rfl⟩
    · show openPositionsOf tickers posResp = []
      rw [openPositionsOf, hl]; rfl
    · exact hmargin
    · show availableBalanceOf assetsResp + _ + _ = _
      rw [hmargin, hpnl, add_zero, add_zero]
  · intro hfail
    have hct := closedTradesOf_of_failed hfail
    have hst : sortedTradesOf histResp = [] := by
      rw [sortedTradesOf, hct]; rfl
    refine ⟨?_, ?_, rfl, rfl⟩
    · show bestTradesOf histResp = []
      rw [bestTradesOf, hst]; rfl
    · show worstTradesOf histResp = []
      rw [worstTradesOf, hst]; rfl
  · intro pos h
    exact calculatedPNL_of_lookup_none h
  · intro view hview
    rcases List.mem_map.mp hview with ⟨pos, _, hpos⟩
    subst hpos
    exact ⟨rfl, hpnl_nil pos⟩
  · refine ⟨?_, rfl, rfl⟩
    show availableBalanceOf assetsResp + totalMarginOf posResp + _ = _
    rw [htotal_nil, add_zero]

/-- C3 witness: a failed assets fetch contributes a zero available balance
while the other sections still compute from their own sources. -/
theorem c3_witness :
    availableBalanceOf (⟨false, none⟩ : Resp (List Asset)) = 0 :=
  ((c3_partial_failure_defaults [] ⟨false, none⟩ ⟨true, some []⟩
    ⟨true, some []⟩).1 (by simp)).1

/-- C5: `bestTrades` is the (at most 3) closed trades — history orders with
state 3 whose price/volume/contract fields pass the code's data filter —
of highest computed PNL in descending order (a sorted selection dominating
all unselected trades), and `worstTrades` is the (at most 3) negative-PNL
closed trades of lowest PNL, ordered most negative first (an ascending
selection dominated by every unselected losing trade). -/
theorem c5_best_worst_trades (histResp : Resp (List HistoryOrder)) :
    ((bestTradesOf histResp).length = min 3 (closedTradesOf histResp).length) ∧
    List.Sorted descByPnl (bestTradesOf histResp) ∧
    (∃ rest : List TradeView,
      (bestTradesOf histResp ++ rest).Perm (closedTradesOf histResp) ∧
      ∀ x ∈ bestTradesOf histResp, ∀ y ∈ rest, y.pnl ≤ x.pnl) ∧
    (∀ t ∈ worstTradesOf histResp, t.pnl < 0) ∧
    List.Sorted (fun a b : TradeView => a.pnl ≤ b.pnl) (worstTradesOf histResp) ∧
    ((worstTradesOf histResp).length =
      min 3 ((closedTradesOf histResp).filter isLoss).length) ∧
    (∃ kept : List TradeView,
      (worstTradesOf histResp ++ kept).Perm
        ((closedTradesOf histResp).filter isLoss) ∧
      ∀ x ∈ worstTradesOf histResp, ∀ y ∈ kept, x.pnl ≤ y.pnl) := by
  have hperm : (sortedTradesOf histResp).Perm (closedTradesOf histResp) :=
    List.perm_insertionSort descByPnl (closedTradesOf histResp)
  have hsorted : List.Pairwise descByPnl (sortedTradesOf histResp) :=
    List.sorted_insertionSort descByPnl (closedTradesOf histResp)
  have hbest_take : bestTradesOf histResp = (sortedTradesOf histResp).take 3 := rfl
  have hworst : worstTradesOf histResp =
      (((sortedTradesOf histResp).filter isLoss).drop
        (((sortedTradesOf histResp).filter isLoss).length - 3)).reverse := rfl
  have hlosses_sorted :
      List.Pairwise descByPnl ((sortedTradesOf histResp).filter isLoss) :=
    List.Pairwise.filter isLoss hsorted
  have hlossperm : ((sortedTradesOf histResp).filter isLoss).Perm
      ((closedTradesOf histResp).filter isLoss) := hperm.filter isLoss
  refine ⟨?_, ?_, ?_, ?_, ?_, ?_, ?_⟩
  · rw [hbest_take, List.length_take, hperm.length_eq]
  · exact List.Pairwise.sublist (List.take_sublist 3 (sortedTradesOf histResp))
      hsorted
  · refine ⟨(sortedTradesOf histResp).drop 3, ?_, ?_⟩
    · rw [hbest_take, List.take_append_drop]
      exact hperm
    · have hp : List.Pairwise descByPnl ((sortedTradesOf histResp).take 3 ++
          (sortedTradesOf histResp).drop 3) := by
        rw [List.take_append_drop]
        exact hsorted
      have hdom := (List.pairwise_append.mp hp).2.2
      intro x hx y hy
      exact hdom x (hbest_take ▸ hx) y hy
  · intro t ht
    rw [hworst, List.mem_reverse] at ht
    have hmem : t ∈ (sortedTradesOf histResp).filter isLoss :=
      List.drop_subset _ _ ht
    have hl := List.of_mem_filter hmem
    simpa [isLoss] using hl
  · rw [hworst]
    refine List.pairwise_reverse.mpr ?_
    exact List.Pairwise.sublist (List.drop_sublist _ _) hlosses_sorted
  · rw [hworst, List.length_reverse, List.length_drop, hlossperm.length_eq]
    omega
  · refine ⟨((sortedTradesOf histResp).filter isLoss).take
      (((sortedTradesOf histResp).filter isLoss).length - 3), ?_, ?_⟩
    · have h1 : (worstTradesOf histResp ++
          ((sortedTradesOf histResp).filter isLoss).take
            (((sortedTradesOf histResp).filter isLoss).length - 3)).Perm
          (((sortedTradesOf histResp).filter isLoss).take
            (((sortedTradesOf histResp).filter isLoss).length - 3) ++
            ((sortedTradesOf histResp).filter isLoss).drop
              (((sortedTradesOf histResp).filter isLoss).length - 3)) := by
        rw [hworst]
        exact ((List.reverse_perm _).append_right _).trans List.perm_append_comm
      rw [List.take_append_drop] at h1
      exact h1.trans hlossperm
    · have hp : List.Pairwise descByPnl
          (((sortedTradesOf histResp).filter isLoss).take
            (((sortedTradesOf histResp).filter isLoss).length - 3) ++
            ((sortedTradesOf histResp).filter isLoss).drop
              (((sortedTradesOf histResp).filter isLoss).length - 3)) := by
        rw [List.take_append_drop]
        exact hlosses_sorted
      have hdom := (List.pairwise_append.mp hp).2.2
      intro x hx y hy
      rw [hworst, List.mem_reverse] at hx
      exact hdom y hy x hx

/-- C5 witness: among closed trades of PNL 5, −2 and −7 (plus one non-closed
order), the trade with PNL −7 ends up in `worstTrades`, and indeed its PNL is
negative. -/
theorem c5_witness :
    (⟨"CCC", (-7 : ℚ)⟩ : TradeView).pnl < 0 :=
  (c5_best_worst_trades ⟨true, some
    [⟨"AAA", 3, 1, some 15, some 10, some 1, some 1⟩,
     ⟨"BBB", 3, 1, some 8, some 10, some 1, some 1⟩,
     ⟨"CCC", 3, 1, some 3, some 10, some 1, some 1⟩,
     ⟨"DDD", 2, 1, some 9, some 10, some 1, some 1⟩]⟩).2.2.2.1
    ⟨"CCC", -7⟩ (by
      have hct : closedTradesOf ⟨true, some
          [⟨"AAA", 3, 1, some 15, some 10, some 1, some 1⟩,
           ⟨"BBB", 3, 1, some 8, some 10, some 1, some 1⟩,
           ⟨"CCC", 3, 1, some 3, some 10, some 1, some 1⟩,
           ⟨"DDD", 2, 1, some 9, some 10, some 1, some 1⟩]⟩ =
          [⟨"AAA", 5⟩, ⟨"BBB", -2⟩, ⟨"CCC", -7⟩] := by
        simp [closedTradesOf, hasTradeData, truthy, tradePNL, pnlDirection]
        norm_num
      simp only [worstTradesOf, sortedTradesOf, hct]
      decide)

end Alhilali
